import Mathlib

/-!
Verification of `web/src/components/table/use-cases/traces.tsx` (langfuse).

The file under verification is a React component rendering a paginated,
filterable table of trace records.  We shallowly embed the pure logic of
that file: the filter-state assembly, the row transformer
`convertToTableRow`, the header-checkbox selection handler, the
bulk-action id filtering, the page-count computation, the tagged
loading/error/success payload handed to the table renderer, the latency
cell, and the filter-column pruning `transformFilterOptions`.

JS `null` and `undefined` are both modelled as `Option.none`; JS objects
used as string-keyed maps (`RowSelectionState`) are modelled as
association lists whose key list plays the role of `Object.keys`.
Numbers that hold second/cost values are modelled as `ℚ` (the claims do
not involve float rounding); counts are `ℕ`.
-/

namespace TracesTable

/-- One entry of a `FilterState` (from `@langfuse/shared`):
a `{column, type, operator, value}` predicate.  The claims only involve
string-valued predicates, so `value` is a `String`. -/
structure FilterCond where
  column : String
  type : String
  operator : String
  value : String
deriving Repr, DecidableEq

/-- JS truthiness of an optional string: `undefined` and the empty
string are falsy, every other string is truthy. -/
def jsTruthy : Option String → Bool
  | none => false
  | some s => !(s == "")

/-- Source lines 111-120:
`const userIdFilter: FilterState = userId ? [{column: "User ID", type:
"string", operator: "=", value: userId}] : [];`
The condition is JS truthiness of `userId`. -/
def userIdFilter (userId : Option String) : List FilterCond :=
  match userId with
  | none => []
  | some u => if u == "" then [] else [⟨"User ID", "string", "=", u⟩]

/-- Source line 122:
`const filterState = userFilterState.concat(userIdFilter);` -/
def filterState (userFilterState : List FilterCond) (userId : Option String) :
    List FilterCond :=
  userFilterState ++ userIdFilter userId

/-- Source line 636: the `filterState` prop handed to `DataTableToolbar`
is `userFilterState` itself, without the synthetic user-id predicate. -/
def toolbarFilterState (userFilterState : List FilterCond) : List FilterCond :=
  userFilterState

/-- A remote trace record, the element type of
`RouterOutput["traces"]["all"]["traces"]`.  Nullable fields are
`Option`s; `timestamp` is an epoch value standing in for the JS `Date`;
scores are kept abstract as opaque payload strings. -/
structure Trace where
  bookmarked : Bool
  id : String
  timestamp : Nat
  name : Option String
  level : String
  observationCount : Nat
  release : Option String
  version : Option String
  userId : Option String
  scores : List String
  sessionId : Option String
  latency : Option ℚ
  tags : List String
  promptTokens : Nat
  completionTokens : Nat
  totalTokens : Nat
  calculatedInputCost : Option ℚ
  calculatedOutputCost : Option ℚ
  calculatedTotalCost : Option ℚ
deriving Repr, DecidableEq

/-- The nested `usage` shape of `TracesTableRow`. -/
structure Usage where
  promptTokens : Nat
  completionTokens : Nat
  totalTokens : Nat
deriving Repr, DecidableEq

/-- The view-row type `TracesTableRow` (source lines 46-72). -/
structure TracesTableRow where
  bookmarked : Bool
  id : String
  timestamp : String
  name : String
  userId : String
  level : String
  observationCount : Nat
  latency : Option ℚ
  release : Option String
  version : Option String
  sessionId : Option String
  scores : List String
  tags : List String
  usage : Usage
  inputCost : Option ℚ
  outputCost : Option ℚ
  totalCost : Option ℚ
deriving Repr, DecidableEq

/-- Stand-in for the JS `Date.toLocaleString` display conversion applied
to `trace.timestamp`; its exact output is irrelevant to every claim. -/
def dateToLocaleString (d : Nat) : String :=
  toString d

/-- The JS expression `x ?? undefined` on a nullable value: `null` maps
to `undefined`, any non-null value passes through. -/
def nullToUndefined (x : Option α) : Option α :=
  match x with
  | none => none
  | some v => some v

/-- The JS expression `x ?? d` on a nullable value with a non-null
default. -/
def nullCoalesce (x : Option α) (d : α) : α :=
  match x with
  | none => d
  | some v => v

/-- Source lines 175-201, `convertToTableRow`: maps a remote trace
record to a `TracesTableRow`.  `latency` is
`trace.latency === null ? undefined : trace.latency`. -/
def convertToTableRow (trace : Trace) : TracesTableRow :=
  { bookmarked := trace.bookmarked
    id := trace.id
    timestamp := dateToLocaleString trace.timestamp
    name := nullCoalesce trace.name ""
    level := trace.level
    observationCount := trace.observationCount
    release := nullToUndefined trace.release
    version := nullToUndefined trace.version
    userId := nullCoalesce trace.userId ""
    scores := trace.scores
    sessionId := nullToUndefined trace.sessionId
    latency := match trace.latency with
      | none => none
      | some v => some v
    tags := trace.tags
    usage := { promptTokens := trace.promptTokens
               completionTokens := trace.completionTokens
               totalTokens := trace.totalTokens }
    inputCost := nullToUndefined trace.calculatedInputCost
    outputCost := nullToUndefined trace.calculatedOutputCost
    totalCost := nullToUndefined trace.calculatedTotalCost }

/-- `RowSelectionState` (`@tanstack/react-table`): a JS object mapping
row ids to booleans, modelled as an association list.  The empty object
`{}` is `[]`. -/
abbrev SelectionState := List (String × Bool)

/-- `Object.keys` of a `RowSelectionState`. -/
def objectKeys (s : SelectionState) : List String :=
  s.map Prod.fst

/-- Modelled from the spec: `table.toggleAllPageRowsSelected(value)` is
`@tanstack/react-table` code, not under `src/`; per the spec it drives a
"page-wide selection toggle", setting every row of the visible page
selected when `value` is true and deselecting the visible page (only)
when `value` is false. -/
def toggleAllPageRowsSelected (value : Bool) (pageIds : List String)
    (s : SelectionState) : SelectionState :=
  if value then
    s.filter (fun p => !(pageIds.contains p.1)) ++ pageIds.map (fun i => (i, true))
  else
    s.filter (fun p => !(pageIds.contains p.1))

/-- Source lines 218-223, the header checkbox `onCheckedChange` handler:
`table.toggleAllPageRowsSelected(!!value); if (!value) setSelectedRows({});`
The resulting component selection state is the page-toggle result when
`value` is truthy, and the empty object otherwise (the trailing
`setSelectedRows({})` overwrites it). -/
def headerCheckboxOnChange (value : Bool) (pageIds : List String)
    (s : SelectionState) : SelectionState :=
  let toggled := toggleAllPageRowsSelected value pageIds s
  if value then toggled else []

/-- `traces.data?.traces.map((t) => t.id)` with optional chaining: when
no data is loaded the whole chain is `undefined`, and
`undefined?.includes(x)` is falsy for every `x`, which behaves exactly
like the empty id list. -/
def currentPageIds (data : Option (List Trace)) : List String :=
  match data with
  | none => []
  | some ts => ts.map Trace.id

/-- Source lines 639-646:
`Object.keys(selectedRows).filter((traceId) => traces.data?.traces.map((t) => t.id).includes(traceId))`
— the trace ids handed to `TraceTableMultiSelectAction`. -/
def selectedTraceIds (selectedRows : SelectionState) (pageIds : List String) :
    List String :=
  (objectKeys selectedRows).filter (fun traceId => pageIds.contains traceId)

/-- Source lines 638-653: the bulk-action control is rendered iff the
filtered selected-id list is non-empty (`.length > 0`). -/
def multiSelectActionVisible (selectedRows : SelectionState)
    (pageIds : List String) : Bool :=
  decide (0 < (selectedTraceIds selectedRows pageIds).length)

/-- Source line 677:
`pageCount: Math.ceil(Number(totalCount) / paginationState.pageSize)`. -/
def pageCount (totalCount pageSize : ℕ) : ℤ :=
  ⌈(totalCount : ℚ) / (pageSize : ℚ)⌉

/-- The status of the `api.traces.all.useQuery` fetch.  The three
constructors reflect react-query's state machine as the source relies
on it: after `isLoading` and `isError` are both false, `data` is
present. -/
inductive TracesQuery where
  | loading
  | failure (message : String)
  | success (traces : List Trace) (totalCount : Nat)
deriving Repr, DecidableEq

/-- The tagged payload type accepted by `DataTable`'s `data` prop. -/
inductive TableData where
  | loading
  | failure (error : String)
  | success (rows : List TracesTableRow)
deriving Repr, DecidableEq

/-- Source lines 661-675: the `data` prop of `DataTable` —
`traces.isLoading ? {isLoading: true, isError: false} : traces.isError ?
{isLoading: false, isError: true, error: traces.error.message} :
{isLoading: false, isError: false, data:
traces.data.traces.map((t) => convertToTableRow(t))}`. -/
def dataTableData (traces : TracesQuery) : TableData :=
  match traces with
  | .loading => .loading
  | .failure message => .failure message
  | .success ts _ => .success (ts.map convertToTableRow)

/-- Modelled from the spec: `formatIntervalSeconds` lives in
`src/utils/dates` which is not under `src/`; per the spec it renders a
seconds count as a formatted duration string ("add seconds to the end of
the latency"). -/
def formatIntervalSeconds (v : ℚ) : String :=
  toString v ++ "s"

/-- Source lines 335-338, the latency column cell:
`value !== undefined ? formatIntervalSeconds(value) : undefined`.
`none` is the empty cell. -/
def latencyCell (value : Option ℚ) : Option String :=
  match value with
  | none => none
  | some v => some (formatIntervalSeconds v)

/-- The option lists delivered by `api.traces.filterOptions`
(`TraceOptions` from `@langfuse/shared`): dynamic values for the
option-annotated filter columns. -/
structure TraceOptions where
  name : List String
  tags : List String
  scores_avg : List String
deriving Repr, DecidableEq

/-- One option-annotated filter column definition. -/
structure ColumnWithOptions where
  name : String
  options : List String
deriving Repr, DecidableEq

/-- Modelled from the spec: `tracesTableColsWithOptions` comes from
`@langfuse/shared`, not under `src/`; it returns the full
option-annotated filter column list of the traces table, attaching the
dynamic option lists from the filter-options query (absent while that
query has no data yet) to the columns that carry one. -/
def tracesTableColsWithOptions (opts : Option TraceOptions) :
    List ColumnWithOptions :=
  [⟨"ID", []⟩,
   ⟨"Timestamp", []⟩,
   ⟨"Name", nullCoalesce (opts.map TraceOptions.name) []⟩,
   ⟨"User ID", []⟩,
   ⟨"sessionId", []⟩,
   ⟨"Latency", []⟩,
   ⟨"Level", []⟩,
   ⟨"Version", []⟩,
   ⟨"Release", []⟩,
   ⟨"Tags", nullCoalesce (opts.map TraceOptions.tags) []⟩,
   ⟨"scores", nullCoalesce (opts.map TraceOptions.scores_avg) []⟩]

/-- Source lines 167-173, `transformFilterOptions`:
`tracesTableColsWithOptions(traceFilterOptions).filter((c) => !omittedFilter?.includes(c.name))`. -/
def transformFilterOptions (omittedFilter : List String)
    (traceFilterOptions : Option TraceOptions) : List ColumnWithOptions :=
  (tracesTableColsWithOptions traceFilterOptions).filter
    (fun c => !(omittedFilter.contains c.name))

/-- A concrete trace record used by the witness theorems. -/
def sampleTrace : Trace :=
  { bookmarked := false
    id := "trace-1"
    timestamp := 1700000000
    name := none
    level := "DEFAULT"
    observationCount := 2
    release := some "r1"
    version := none
    userId := none
    scores := []
    sessionId := some "sess-1"
    latency := some 0
    tags := ["prod"]
    promptTokens := 10
    completionTokens := 5
    totalTokens := 15
    calculatedInputCost := none
    calculatedOutputCost := some 1
    calculatedTotalCost := some 1 }

/-! ## Theorems -/

/-- Helper: the `Math.ceil` page count agrees with ceiling division on
naturals. -/
theorem pageCount_eq_natCeilDiv (t p : ℕ) (h : 0 < p) :
    pageCount t p = ((t + p - 1) / p : ℕ) := by
  have hp : (0 : ℚ) < p := by exact_mod_cast h
  set q : ℕ := (t + p - 1) / p with hq
  have h1 : q * p ≤ t + p - 1 := Nat.div_mul_le_self _ _
  have h2 : t + p - 1 < q * p + p := by
    have hlt : (t + p - 1) / p < q + 1 := Nat.lt_succ_self q
    calc t + p - 1 < (q + 1) * p := (Nat.div_lt_iff_lt_mul h).mp hlt
      _ = q * p + p := by ring
  have hB : t ≤ q * p := by omega
  have hA : q * p < t + p := by omega
  rw [pageCount, Int.ceil_eq_iff]
  push_cast
  constructor
  · rw [lt_div_iff₀ hp]
    have hA' : (q : ℚ) * p < t + p := by exact_mod_cast hA
    nlinarith
  · rw [div_le_iff₀ hp]
    exact_mod_cast hB

/-- C1 (counterexample): the claim as stated fails for the provided but
empty user id `some ""` — JS truthiness drops the synthetic predicate,
so the effective filter is `F` alone rather than
`F ++ [{User ID, string, =, ""}]`. -/
theorem claim_C1_counterexample :
    ¬ (filterState [] (some "") =
      [] ++ [({ column := "User ID", type := "string", operator := "="
                value := "" } : FilterCond)]) := by
  decide

/-- C1 (amended): for every user-editable filter list `F`, the effective
filter equals `F` concatenated with exactly one synthetic
`{User ID, string, =, u}` predicate when the user id is provided and
non-empty, and equals `F` alone when the user id is absent or the empty
string; the filter state handed to the filter UI toolbar is `F` itself,
so the synthetic predicate is never added to it. -/
theorem claim_C1_effective_filter (F : List FilterCond) (U : Option String) :
    (∀ u, U = some u → u ≠ "" →
      filterState F U = F ++ [⟨"User ID", "string", "=", u⟩]) ∧
    (U = none → filterState F U = F) ∧
    (U = some "" → filterState F U = F) ∧
    toolbarFilterState F = F ∧
    (∀ c, c ∈ toolbarFilterState F → c ∈ F) := by
  refine ⟨?_, ?_, ?_, rfl, fun c hc => hc⟩
  · intro u hu hne
    subst hu
    simp [filterState, userIdFilter, hne]
  · intro hU
    subst hU
    simp [filterState, userIdFilter]
  · intro hU
    subst hU
    simp [filterState, userIdFilter]

/-- C1 witness: at `F = []` and a non-empty user id the effective filter
is exactly the one synthetic predicate. -/
theorem claim_C1_effective_filter_witness :
    filterState [] (some "user-7") = [⟨"User ID", "string", "=", "user-7"⟩] := by
  have h := (claim_C1_effective_filter [] (some "user-7")).1 "user-7" rfl (by decide)
  simpa using h

/-- C2: the transformed row's latency is `none` iff the record's latency
is null, and every non-null latency (including `0`) passes through
unchanged. -/
theorem claim_C2_latency (t : Trace) :
    ((convertToTableRow t).latency = none ↔ t.latency = none) ∧
    ∀ v : ℚ, t.latency = some v → (convertToTableRow t).latency = some v := by
  constructor
  · cases h : t.latency <;> simp [convertToTableRow, h]
  · intro v hv
    simp [convertToTableRow, hv]

/-- C2 witness: a record with latency `0` keeps latency `0` (not
`none`). -/
theorem claim_C2_latency_witness :
    (convertToTableRow sampleTrace).latency = some 0 :=
  (claim_C2_latency sampleTrace).2 0 rfl

/-- C3: for each of `release`, `version` and `sessionId`, the
transformed row's field is `none` iff the record's field is null, and a
non-null value passes through unchanged. -/
theorem claim_C3_optional_fields (t : Trace) :
    ((convertToTableRow t).release = none ↔ t.release = none) ∧
    (∀ v, t.release = some v → (convertToTableRow t).release = some v) ∧
    ((convertToTableRow t).version = none ↔ t.version = none) ∧
    (∀ v, t.version = some v → (convertToTableRow t).version = some v) ∧
    ((convertToTableRow t).sessionId = none ↔ t.sessionId = none) ∧
    (∀ v, t.sessionId = some v → (convertToTableRow t).sessionId = some v) := by
  refine ⟨?_, ?_, ?_, ?_, ?_, ?_⟩
  · cases h : t.release <;> simp [convertToTableRow, nullToUndefined, h]
  · intro v hv
    simp [convertToTableRow, nullToUndefined, hv]
  · cases h : t.version <;> simp [convertToTableRow, nullToUndefined, h]
  · intro v hv
    simp [convertToTableRow, nullToUndefined, hv]
  · cases h : t.sessionId <;> simp [convertToTableRow, nullToUndefined, h]
  · intro v hv
    simp [convertToTableRow, nullToUndefined, hv]

/-- C3 witness: a non-null release passes through; the null version maps
to `none`. -/
theorem claim_C3_optional_fields_witness :
    (convertToTableRow sampleTrace).release = some "r1" :=
  (claim_C3_optional_fields sampleTrace).2.1 "r1" rfl

/-- C4: toggling the header checkbox to unchecked always yields the
empty selection mapping, whatever the prior selection and the visible
page were. -/
theorem claim_C4_uncheck_clears (s : SelectionState) (pageIds : List String) :
    headerCheckboxOnChange false pageIds s = [] ∧
    objectKeys (headerCheckboxOnChange false pageIds s) = [] := by
  simp [headerCheckboxOnChange, objectKeys]

/-- C5: the bulk-action control is rendered iff some selected key is on
the current page, and the ids handed to the bulk action are exactly the
selected keys that are on the current page. -/
theorem claim_C5_bulk_action (selectedRows : SelectionState)
    (pageIds : List String) :
    (multiSelectActionVisible selectedRows pageIds = true ↔
      ∃ i, i ∈ objectKeys selectedRows ∧ i ∈ pageIds) ∧
    ∀ i, i ∈ selectedTraceIds selectedRows pageIds ↔
      (i ∈ objectKeys selectedRows ∧ i ∈ pageIds) := by
  constructor
  · rw [multiSelectActionVisible, decide_eq_true_iff,
      List.length_pos_iff_exists_mem]
    constructor
    · rintro ⟨i, hi⟩
      rw [selectedTraceIds, List.mem_filter] at hi
      exact ⟨i, hi.1, by simpa using hi.2⟩
    · rintro ⟨i, hi1, hi2⟩
      exact ⟨i, by rw [selectedTraceIds, List.mem_filter]; exact ⟨hi1, by simpa using hi2⟩⟩
  · intro i
    rw [selectedTraceIds, List.mem_filter]
    constructor
    · rintro ⟨h1, h2⟩
      exact ⟨h1, by simpa using h2⟩
    · rintro ⟨h1, h2⟩
      exact ⟨h1, by simpa using h2⟩

/-- C6: the page count is the ceiling of `totalCount / pageSize` for any
positive page size (as natural ceiling division), and in particular
`totalCount = 101`, `pageSize = 50` gives `3` pages. -/
theorem claim_C6_pageCount (totalCount pageSize : ℕ) (h : 0 < pageSize) :
    pageCount totalCount pageSize =
      ((totalCount + pageSize - 1) / pageSize : ℕ) ∧
    pageCount 101 50 = 3 := by
  refine ⟨pageCount_eq_natCeilDiv _ _ h, ?_⟩
  rw [pageCount_eq_natCeilDiv 101 50 (by norm_num)]
  norm_num

/-- C6 witness: `totalCount = 101`, `pageSize = 50` gives `3` pages. -/
theorem claim_C6_pageCount_witness : pageCount 101 50 = 3 :=
  (claim_C6_pageCount 101 50 (by norm_num)).2

/-- C7: the `data` payload handed to the table renderer is always
exactly one of the three tagged shapes — loading, failure with the fetch
error message, or success with the transformed rows — matching the
fetch status, and the three shapes are mutually exclusive. -/
theorem claim_C7_tagged_payload (traces : TracesQuery) :
    (dataTableData traces = .loading ∨
      (∃ m, dataTableData traces = .failure m) ∨
      ∃ rows, dataTableData traces = .success rows) ∧
    (traces = .loading → dataTableData traces = .loading) ∧
    (∀ m, traces = .failure m → dataTableData traces = .failure m) ∧
    (∀ ts n, traces = .success ts n →
      dataTableData traces = .success (ts.map convertToTableRow)) ∧
    (dataTableData traces = .loading →
      (∀ m, dataTableData traces ≠ .failure m) ∧
      ∀ rows, dataTableData traces ≠ .success rows) ∧
    (∀ m rows, dataTableData traces = .failure m →
      dataTableData traces ≠ .success rows) := by
  cases traces <;> simp [dataTableData]

/-- C7 witness: a loading fetch yields the loading payload. -/
theorem claim_C7_tagged_payload_witness :
    dataTableData TracesQuery.loading = TableData.loading :=
  (claim_C7_tagged_payload TracesQuery.loading).2.1 rfl

/-- C8: a row whose latency is `0` renders the formatted duration for
`0`, never an empty cell; the cell is empty exactly when the latency is
`none`. -/
theorem claim_C8_latency_zero (r : TracesTableRow) :
    (r.latency = some 0 →
      latencyCell r.latency = some (formatIntervalSeconds 0) ∧
      latencyCell r.latency ≠ none) ∧
    (latencyCell r.latency = none ↔ r.latency = none) := by
  constructor
  · intro h
    simp [latencyCell, h]
  · cases h : r.latency <;> simp [latencyCell, h]

/-- C8 witness: the sample row has latency `0` and renders the formatted
`0` duration. -/
theorem claim_C8_latency_zero_witness :
    latencyCell (convertToTableRow sampleTrace).latency =
      some (formatIntervalSeconds 0) :=
  ((claim_C8_latency_zero (convertToTableRow sampleTrace)).1 rfl).1

/-- C9: a column definition is in the filterable columns passed to the
toolbar iff it is in the full option-annotated column list and its name
is not in the caller's omission list. -/
theorem claim_C9_omitted_filter (omitted : List String)
    (opts : Option TraceOptions) :
    ∀ c, c ∈ transformFilterOptions omitted opts ↔
      (c ∈ tracesTableColsWithOptions opts ∧ c.name ∉ omitted) := by
  intro c
  rw [transformFilterOptions, List.mem_filter]
  constructor
  · rintro ⟨h1, h2⟩
    exact ⟨h1, by simpa using h2⟩
  · rintro ⟨h1, h2⟩
    exact ⟨h1, by simpa using h2⟩

/-- C10: the row transformer coerces a null name and a null userId to
the empty string, and passes non-null values through unchanged. -/
theorem claim_C10_name_userId (t : Trace) :
    (t.name = none → (convertToTableRow t).name = "") ∧
    (∀ s, t.name = some s → (convertToTableRow t).name = s) ∧
    (t.userId = none → (convertToTableRow t).userId = "") ∧
    (∀ s, t.userId = some s → (convertToTableRow t).userId = s) := by
  refine ⟨?_, ?_, ?_, ?_⟩
  · intro h
    simp [convertToTableRow, nullCoalesce, h]
  · intro s hs
    simp [convertToTableRow, nullCoalesce, hs]
  · intro h
    simp [convertToTableRow, nullCoalesce, h]
  · intro s hs
    simp [convertToTableRow, nullCoalesce, hs]

/-- C10 witness: the sample trace has a null name and a null userId and
both become the empty string. -/
theorem claim_C10_name_userId_witness :
    (convertToTableRow sampleTrace).name = "" :=
  (claim_C10_name_userId sampleTrace).1 rfl

end TracesTable
